import Mathlib

/-!
Verification development for the onboarding assistant server.

The definitions below are a shallow embedding of the Python source
`src/app.py` (FastAPI WebSocket onboarding server).  Stateful code that
mutates the process-wide `sessions` dictionary is rendered as explicit
state passing on an association-list table; the nondeterministic agent
runtime (LLM streaming) is rendered as an oracle input describing what
the runner did on a turn.  The `POST /save` persistence sink lives in the
other server variant of the repository, which is not under `src/`; it is
modelled from the specification text and marked as such.
-/

set_option autoImplicit false

namespace Onboarding

/-- A JSON value, as produced by the standard-library JSON decoder.
Objects keep their fields as an ordered association list. -/
inductive Json where
  | null
  | bool (b : Bool)
  | num (n : Int)
  | str (s : String)
  | arr (elems : List Json)
  | obj (fields : List (String × Json))

namespace AList

/-- Python `d.get(k)`: first binding for `k`, if any. -/
def get? {α : Type} (m : List (String × α)) (k : String) : Option α :=
  (m.find? (fun p => p.1 == k)).map (fun p => p.2)

/-- Python `d[k] = v`: update the binding in place when the key is
present, otherwise append it (insertion order preserved, as in a dict). -/
def upsert {α : Type} (m : List (String × α)) (k : String) (v : α) : List (String × α) :=
  if m.any (fun p => p.1 == k) then
    m.map (fun p => if p.1 == k then (k, v) else p)
  else
    m ++ [(k, v)]

end AList

/-- One record of the process-wide `sessions` dictionary
(`src/app.py`, lines 80-85).  `last_llm_message` is absent until the
first completed turn sets it, hence `Option`. -/
structure Session where
  answers : List (String × String)
  history : List (String × String)
  schema : Json
  turn_count : Nat
  last_llm_message : Option String

/-- The process-wide `sessions : Dict[str, Dict[str, Any]]` table
(`src/app.py`, line 27). -/
abbrev SessionTable := List (String × Session)

/-- `sessions.get(session_id)`. -/
def sget (tbl : SessionTable) (sid : String) : Option Session :=
  AList.get? tbl sid

/-- `sessions[session_id] = s`. -/
def sset (tbl : SessionTable) (sid : String) (s : Session) : SessionTable :=
  AList.upsert tbl sid s

/-- The `save_answer` tool (`src/app.py`, lines 34-42): on an unknown id
return the sentinel string; otherwise upsert `answers[key] = raw_text`,
append a history event and return the `json.dumps` confirmation. -/
def save_answer (tbl : SessionTable) (session_id key raw_text : String) :
    SessionTable × String :=
  match sget tbl session_id with
  | none => (tbl, "error:session_not_found")
  | some s =>
    let s' : Session :=
      { s with
        answers := AList.upsert s.answers key raw_text,
        history := s.history ++ [(key, raw_text)] }
    (sset tbl session_id s',
     "\x7b\"saved_key\": \"" ++ key ++ "\", \"status\": \"saved\"\x7d")

/-- Response body of `GET /session/{session_id}`. -/
inductive GetSessionResp where
  | err (message : String)
  | ok (session_id : String) (answers : List (String × String))
       (history : List (String × String)) (turns : Nat)

/-- The `GET /session/{session_id}` handler (`src/app.py`, lines
191-202): the `session_id not in sessions` guard followed by the
`sessions[session_id]` read is a single table lookup.  The handler only
reads the table, so it returns it unchanged. -/
def get_session (tbl : SessionTable) (session_id : String) :
    GetSessionResp × SessionTable :=
  match sget tbl session_id with
  | none => (GetSessionResp.err "session not found", tbl)
  | some s =>
    (GetSessionResp.ok session_id s.answers s.history s.turn_count, tbl)

/-- A server-to-client frame on the duplex channel, one constructor per
`ws.send_text(json.dumps({"type": ...}))` shape in `src/app.py`. -/
inductive OutEvent where
  | session_started (session_id : String)
  | delta (d : String)
  | tool_call (tool : Option String)
  | tool_output (status : String)
  | answer_saved (key : String)
  | message_complete
  | conversation_ended (message : String)
  | error (message : String)

/-- Connection state after the handshake phase. -/
inductive ConnState where
  | active (session_id : String)
  | closed

/-- Field lookup on a decoded JSON object association list. -/
def dictGet (fields : List (String × Json)) (k : String) : Option Json :=
  AList.get? fields k

/-- `parsed.get(k)` on a decoded JSON value (None when not a dict). -/
def jsonGet (j : Json) (k : String) : Option Json :=
  match j with
  | Json.obj fields => dictGet fields k
  | _ => none

/-- `isinstance(parsed, dict) and parsed.get("action") == "start"`
(`src/app.py`, line 78). -/
def isStart (j : Json) : Bool :=
  match j with
  | Json.obj fields =>
    match dictGet fields "action" with
    | some (Json.str s) => s == "start"
    | _ => false
  | _ => false

/-- First-message classifier used to state the failure half of the
handshake: anything that is not a dict with `action == "start"`,
including text that fails to decode (`none`). -/
def notStartMsg (firstMsg : Option Json) : Bool :=
  match firstMsg with
  | none => true
  | some p => !(isStart p)

/-- The handshake phase of `websocket_onboard` (`src/app.py`, lines
74-94).  `firstMsg` is the result of `json.loads` on the first frame
(`none` when it raises `json.JSONDecodeError`); `freshId` is the value
produced by `str(uuid4())`.  On a start message a fresh session record is
inserted and `session_started` is sent; otherwise a single error frame is
sent and the connection is closed. -/
def handshake (tbl : SessionTable) (freshId : String) (firstMsg : Option Json) :
    SessionTable × List OutEvent × ConnState :=
  match firstMsg with
  | none => (tbl, [OutEvent.error "connection_failed"], ConnState.closed)
  | some parsed =>
    if isStart parsed then
      let record : Session :=
        { answers := []
          history := []
          schema := (jsonGet parsed "schema").getD (Json.obj [])
          turn_count := 0
          last_llm_message := none }
      (sset tbl freshId record,
       [OutEvent.session_started freshId], ConnState.active freshId)
    else
      (tbl, [OutEvent.error "invalid_start_payload"], ConnState.closed)

/-- What the agent runtime did while a turn was driven
(`Runner.run_streamed` plus the event-forwarding loop).  The runtime is
external and nondeterministic, so a turn outcome is an oracle input: the
frames it caused to be sent, the accumulated `full_message`, the table as
mutated by any tool calls it made, or the exception it raised
(`isJsonDecodeError` distinguishes `json.JSONDecodeError` from other
exceptions, which the loop handles differently). -/
inductive TurnResult where
  | ok (events : List OutEvent) (full_message : String) (tbl : SessionTable)
  | raise (isJsonDecodeError : Bool) (message : String) (tbl : SessionTable)

/-- Result of `await ws.receive_text()`: a text frame, or
`WebSocketDisconnect`. -/
inductive RecvResult where
  | msg (text : String)
  | disconnected

/-- Effect of one pass through a turn phase: the loop either keeps
reading (`continue`) or terminates (`break` / `return`). -/
inductive StepResult where
  | continued (tbl : SessionTable) (events : List OutEvent)
  | closedStep (tbl : SessionTable) (events : List OutEvent)

/-- The four termination phrases (`src/app.py`, line 140). -/
def closeTokens : List String := ["exit", "quit", "done", "bye"]

/-- Python `str.lower()`, as applied to the inbound frame on line 140
(ASCII case folding, which covers the termination tokens). -/
def strLower (s : String) : String := String.mk (s.data.map Char.toLower)

/-- Fixed text of the closing notification (`src/app.py`, line 141). -/
def endMessage : String :=
  "Thank you for chatting. Your profile has been saved."

/-- Lines 126-127 / 179-180: on turn completion store `full_message` and
increment `turn_count` (a lookup-then-assign on the table). -/
def bumpTurn (tbl : SessionTable) (sid : String) (full : String) : SessionTable :=
  match sget tbl sid with
  | none => tbl
  | some s =>
    sset tbl sid
      { s with last_llm_message := some full, turn_count := s.turn_count + 1 }

/-- The initial greeting turn (`src/app.py`, lines 96-132): on success
send `message_complete` and bump the session; on ANY exception send an
error frame, close and return. -/
def initialTurn (tbl : SessionTable) (sid : String) (turn : TurnResult) :
    StepResult :=
  match turn with
  | TurnResult.ok evs full tbl' =>
    StepResult.continued (bumpTurn tbl' sid full) (evs ++ [OutEvent.message_complete])
  | TurnResult.raise _ m tbl' =>
    StepResult.closedStep tbl' [OutEvent.error m]

/-- One iteration of the conversation loop (`src/app.py`, lines
135-189): a disconnect breaks out; a termination phrase (lowercased)
sends `conversation_ended` and breaks before any agent work; otherwise
the turn is driven, with `json.JSONDecodeError` reported as
`invalid_input` and any other exception reported with its text, both
followed by `continue`. -/
def loopIter (tbl : SessionTable) (sid : String) (recv : RecvResult)
    (turn : TurnResult) : StepResult :=
  match recv with
  | RecvResult.disconnected => StepResult.closedStep tbl []
  | RecvResult.msg user_input =>
    if closeTokens.contains (strLower user_input) then
      StepResult.closedStep tbl [OutEvent.conversation_ended endMessage]
    else
      match turn with
      | TurnResult.ok evs full tbl' =>
        StepResult.continued (bumpTurn tbl' sid full)
          (evs ++ [OutEvent.message_complete])
      | TurnResult.raise true _ tbl' =>
        StepResult.continued tbl' [OutEvent.error "invalid_input"]
      | TurnResult.raise false m tbl' =>
        StepResult.continued tbl' [OutEvent.error m]

/-- Driving the conversation loop over a finite trace of inputs.  The
Bool records whether the loop terminated (`true`) or is still waiting
for the next frame when the trace runs out (`false`). -/
def runLoop (tbl : SessionTable) (sid : String) :
    List (RecvResult × TurnResult) → SessionTable × List OutEvent × Bool
  | [] => (tbl, [], false)
  | (r, t) :: rest =>
    match loopIter tbl sid r t with
    | StepResult.closedStep tbl' evs => (tbl', evs, true)
    | StepResult.continued tbl' evs =>
      let out := runLoop tbl' sid rest
      (out.1, evs ++ out.2.1, out.2.2)

/-- One transcript entry of the `POST /save` body. -/
structure TranscriptMsg where
  role : String
  content : String

/-- Response body of `POST /save`. -/
structure SaveResponse where
  message : String
  data : List (String × Json)
  transcript_messages : Nat

/-- Contents of the two fixed-path JSON files (`none` before the first
save). -/
structure FsState where
  dataFile : Option Json
  transcriptFile : Option Json

/-- Modelled from the spec: the `POST /save` handler of the persistence
sink belongs to the voice-relay server variant, which is not under
`src/`.  Per spec sections 4.3 and 6 it accepts `\x7bdata, transcript\x7d`,
overwrites the data file with the data mapping, overwrites the
transcript file with `\x7buser_data, conversation, timestamp\x7d`, and returns
`\x7bmessage, data, transcript_messages\x7d` where the count is the transcript
length. -/
def post_save (fs : FsState) (timestamp : String) (data : List (String × Json))
    (transcript : List TranscriptMsg) : FsState × SaveResponse :=
  let _ := fs
  ({ dataFile := some (Json.obj data)
     transcriptFile := some (Json.obj
       [("user_data", Json.obj data),
        ("conversation", Json.arr (transcript.map (fun t =>
          Json.obj [("role", Json.str t.role), ("content", Json.str t.content)]))),
        ("timestamp", Json.str timestamp)]) },
   { message := "Data and transcript saved successfully!"
     data := data
     transcript_messages := transcript.length })

/-- Concrete fixture: a freshly started session record. -/
def s0 : Session :=
  { answers := []
    history := []
    schema := Json.obj []
    turn_count := 0
    last_llm_message := none }

/-- Concrete fixture: a table holding one session. -/
def tbl0 : SessionTable := [("s1", s0)]

end Onboarding

namespace Onboarding

theorem AList.get?_map_upd {α : Type} (m : List (String × α)) (k : String) (v : α)
    (h : m.any (fun p => p.1 == k) = true) :
    AList.get? (m.map (fun p => if p.1 == k then (k, v) else p)) k = some v := by
  induction m with
  | nil => simp at h
  | cons p rest ih =>
    rw [List.map_cons]
    by_cases hp : (p.1 == k) = true
    · rw [if_pos hp]
      unfold AList.get?
      rw [List.find?_cons_of_pos]
      · rfl
      · exact beq_self_eq_true k
    · have hp' : (p.1 == k) = false := by
        simpa using hp
      have hr : rest.any (fun p => p.1 == k) = true := by
        simpa [List.any_cons, hp'] using h
      rw [if_neg hp]
      unfold AList.get?
      rw [List.find?_cons_of_neg]
      · exact ih hr
      · simpa using hp

theorem AList.get?_append_fresh {α : Type} (m : List (String × α)) (k : String) (v : α)
    (h : m.any (fun p => p.1 == k) = false) :
    AList.get? (m ++ [(k, v)]) k = some v := by
  induction m with
  | nil =>
    unfold AList.get?
    rw [List.nil_append, List.find?_cons_of_pos]
    · rfl
    · exact beq_self_eq_true k
  | cons p rest ih =>
    have hp : (p.1 == k) = false := by
      by_contra hc
      have : (p.1 == k) = true := by
        cases hb : (p.1 == k) with
        | false => exact absurd hb hc
        | true => rfl
      rw [List.any_cons, this, Bool.true_or] at h
      exact Bool.noConfusion h
    have hr : rest.any (fun p => p.1 == k) = false := by
      rw [List.any_cons, hp, Bool.false_or] at h
      exact h
    rw [List.cons_append]
    unfold AList.get?
    rw [List.find?_cons_of_neg]
    · exact ih hr
    · simp [hp]

theorem AList.get?_upsert_self {α : Type} (m : List (String × α)) (k : String) (v : α) :
    AList.get? (AList.upsert m k v) k = some v := by
  unfold AList.upsert
  cases h : m.any (fun p => p.1 == k) with
  | true => simpa [h] using AList.get?_map_upd m k v h
  | false => simpa [h] using AList.get?_append_fresh m k v h

theorem sget_sset_self (tbl : SessionTable) (sid : String) (s : Session) :
    sget (sset tbl sid s) sid = some s :=
  AList.get?_upsert_self tbl sid s

theorem save_answer_found (tbl : SessionTable) (sid k v : String) (s : Session)
    (h : sget tbl sid = some s) :
    (save_answer tbl sid k v).1 =
      sset tbl sid { s with answers := AList.upsert s.answers k v,
                            history := s.history ++ [(k, v)] } := by
  unfold save_answer
  rw [h]

end Onboarding

namespace Onboarding

/-- C1: for every session table and every session id absent from it,
`save_answer` returns the not-found sentinel string and leaves the
session table completely unchanged. -/
theorem save_answer_unknown_session (tbl : SessionTable) (sid k v : String)
    (h : sget tbl sid = none) :
    save_answer tbl sid k v = (tbl, "error:session_not_found") := by
  unfold save_answer
  rw [h]

theorem save_answer_unknown_session_witness :
    save_answer ([] : SessionTable) "s1" "name" "Ana" =
      ([], "error:session_not_found") :=
  save_answer_unknown_session [] "s1" "name" "Ana" rfl

/-- C2: for every existing session, calling `save_answer` twice with the
same key (values v1 then v2) leaves `answers[key]` equal to v2 while the
history records both writes as two appended events, with no
deduplication. -/
theorem save_answer_last_write_wins (tbl : SessionTable) (sid k v1 v2 : String)
    (s : Session) (h : sget tbl sid = some s) :
    ∃ s2 : Session,
      sget (save_answer (save_answer tbl sid k v1).1 sid k v2).1 sid = some s2 ∧
      AList.get? s2.answers k = some v2 ∧
      s2.history = s.history ++ [(k, v1), (k, v2)] := by
  have h1 := save_answer_found tbl sid k v1 s h
  have h2 : sget (save_answer tbl sid k v1).1 sid =
      some { s with answers := AList.upsert s.answers k v1,
                    history := s.history ++ [(k, v1)] } := by
    rw [h1]
    exact sget_sset_self _ _ _
  have h3 := save_answer_found (save_answer tbl sid k v1).1 sid k v2 _ h2
  refine ⟨{ answers := AList.upsert (AList.upsert s.answers k v1) k v2,
            history := (s.history ++ [(k, v1)]) ++ [(k, v2)],
            schema := s.schema, turn_count := s.turn_count,
            last_llm_message := s.last_llm_message }, ?_, ?_, ?_⟩
  · rw [h3]
    exact sget_sset_self _ _ _
  · exact AList.get?_upsert_self _ _ _
  · simp

theorem save_answer_last_write_wins_witness :
    ∃ s2 : Session,
      sget (save_answer (save_answer tbl0 "s1" "name" "Bob").1 "s1" "name" "Carol").1 "s1" =
        some s2 ∧
      AList.get? s2.answers "name" = some "Carol" ∧
      s2.history = s0.history ++ [("name", "Bob"), ("name", "Carol")] :=
  save_answer_last_write_wins tbl0 "s1" "name" "Bob" "Carol" s0 rfl

/-- C3: a first message decoding to a dict with `action == "start"`
creates a session under the freshly generated identifier (assumed absent
from the table, as for a fresh uuid), whose record has empty answers,
empty history, the client-supplied schema echo and `turn_count` 0, and
the server replies with `session_started` carrying that identifier. -/
theorem start_handshake_creates_session (tbl : SessionTable) (freshId : String)
    (parsed : Json) (hstart : isStart parsed = true)
    (hfresh : sget tbl freshId = none) :
    (handshake tbl freshId (some parsed)).2.1 =
      [OutEvent.session_started freshId] ∧
    (handshake tbl freshId (some parsed)).2.2 = ConnState.active freshId ∧
    sget (handshake tbl freshId (some parsed)).1 freshId =
      some { answers := [], history := [],
             schema := (jsonGet parsed "schema").getD (Json.obj []),
             turn_count := 0, last_llm_message := none } := by
  refine ⟨?_, ?_, ?_⟩ <;> simp [handshake, hstart, sget_sset_self]

theorem start_handshake_creates_session_witness :
    (handshake [] "s1" (some (Json.obj [("action", Json.str "start"),
        ("schema", Json.obj [])]))).2.1 = [OutEvent.session_started "s1"] ∧
    (handshake [] "s1" (some (Json.obj [("action", Json.str "start"),
        ("schema", Json.obj [])]))).2.2 = ConnState.active "s1" ∧
    sget (handshake [] "s1" (some (Json.obj [("action", Json.str "start"),
        ("schema", Json.obj [])]))).1 "s1" =
      some { answers := [], history := [],
             schema := (jsonGet (Json.obj [("action", Json.str "start"),
               ("schema", Json.obj [])]) "schema").getD (Json.obj []),
             turn_count := 0, last_llm_message := none } :=
  start_handshake_creates_session [] "s1"
    (Json.obj [("action", Json.str "start"), ("schema", Json.obj [])]) rfl rfl

/-- C4: in the Active state, an inbound message whose lowercased form is
one of the termination tokens makes the loop emit exactly one
`conversation_ended` frame and terminate, independently of the agent
oracle and of any further trace (no turn processing, no agent
invocation for that message). -/
theorem termination_token_ends_conversation (tbl : SessionTable)
    (sid u : String) (turn : TurnResult)
    (rest : List (RecvResult × TurnResult))
    (h : strLower u ∈ closeTokens) :
    runLoop tbl sid ((RecvResult.msg u, turn) :: rest) =
      (tbl, [OutEvent.conversation_ended endMessage], true) := by
  simp [runLoop, loopIter, h]

theorem termination_token_ends_conversation_witness :
    runLoop tbl0 "s1"
      ((RecvResult.msg "EXIT", TurnResult.ok [] "hi" tbl0) ::
        [(RecvResult.msg "more", TurnResult.ok [] "x" tbl0)]) =
      (tbl0, [OutEvent.conversation_ended endMessage], true) :=
  termination_token_ends_conversation tbl0 "s1" "EXIT"
    (TurnResult.ok [] "hi" tbl0) [(RecvResult.msg "more", TurnResult.ok [] "x" tbl0)]
    (by decide)

end Onboarding

namespace Onboarding

/-- C5 counterexample: at a concrete state, an unexpected exception
during a conversation-loop turn leaves the loop open (termination flag
`false`) and a further user message is read and fully processed
afterwards, contrary to the claim that the connection transitions to
Closed immediately. -/
theorem loop_exception_not_fatal_counterexample :
    runLoop tbl0 "s1"
      [(RecvResult.msg "hello", TurnResult.raise false "boom" tbl0)] =
      (tbl0, [OutEvent.error "boom"], false) ∧
    runLoop tbl0 "s1"
      [(RecvResult.msg "hello", TurnResult.raise false "boom" tbl0),
       (RecvResult.msg "Second message", TurnResult.ok [] "reply" tbl0)] =
      ([("s1", { answers := [], history := [], schema := Json.obj [],
                 turn_count := 1, last_llm_message := some "reply" })],
       [OutEvent.error "boom", OutEvent.message_complete], false) :=
  ⟨rfl, rfl⟩

/-- C5 amended: an unexpected exception while driving the initial
greeting turn sends an error frame and closes the connection; an
unexpected exception during a conversation-loop turn sends an error
frame and the loop continues (the connection stays open and further
messages are read). -/
theorem exception_policy_by_phase (tbl tbl' : SessionTable) (sid u m : String)
    (b : Bool) (h : strLower u ∉ closeTokens) :
    initialTurn tbl sid (TurnResult.raise b m tbl') =
      StepResult.closedStep tbl' [OutEvent.error m] ∧
    loopIter tbl sid (RecvResult.msg u) (TurnResult.raise false m tbl') =
      StepResult.continued tbl' [OutEvent.error m] := by
  constructor
  · rfl
  · simp [loopIter, h]

theorem exception_policy_by_phase_witness :
    initialTurn tbl0 "s1" (TurnResult.raise false "boom" tbl0) =
      StepResult.closedStep tbl0 [OutEvent.error "boom"] ∧
    loopIter tbl0 "s1" (RecvResult.msg "hello")
        (TurnResult.raise false "boom" tbl0) =
      StepResult.continued tbl0 [OutEvent.error "boom"] :=
  exception_policy_by_phase tbl0 tbl0 "s1" "hello" "boom" false (by decide)

/-- C6: a message whose turn raises `json.JSONDecodeError` in the Active
state is reported with an `invalid_input` error frame, the connection is
not closed, and the loop keeps processing the remaining trace. -/
theorem malformed_message_keeps_loop_open (tbl tbl' : SessionTable)
    (sid u m : String) (rest : List (RecvResult × TurnResult))
    (h : strLower u ∉ closeTokens) :
    runLoop tbl sid ((RecvResult.msg u, TurnResult.raise true m tbl') :: rest) =
      ((runLoop tbl' sid rest).1,
       OutEvent.error "invalid_input" :: (runLoop tbl' sid rest).2.1,
       (runLoop tbl' sid rest).2.2) := by
  simp [runLoop, loopIter, h]

theorem malformed_message_keeps_loop_open_witness :
    runLoop tbl0 "s1"
      ((RecvResult.msg "not a json frame", TurnResult.raise true "x" tbl0) ::
        [(RecvResult.msg "EXIT", TurnResult.ok [] "y" tbl0)]) =
      ((runLoop tbl0 "s1" [(RecvResult.msg "EXIT", TurnResult.ok [] "y" tbl0)]).1,
       OutEvent.error "invalid_input" ::
         (runLoop tbl0 "s1" [(RecvResult.msg "EXIT", TurnResult.ok [] "y" tbl0)]).2.1,
       (runLoop tbl0 "s1" [(RecvResult.msg "EXIT", TurnResult.ok [] "y" tbl0)]).2.2) :=
  malformed_message_keeps_loop_open tbl0 tbl0 "s1" "not a json frame" "x"
    [(RecvResult.msg "EXIT", TurnResult.ok [] "y" tbl0)] (by decide)

/-- C7: in the AwaitingStart state, a first message that is not a
structured start message (invalid JSON, or valid JSON that is not a dict
with `action == "start"`) produces a single error frame, a closed
connection, and no change to the session table. -/
theorem invalid_first_message_closes (tbl : SessionTable) (freshId : String)
    (firstMsg : Option Json) (h : notStartMsg firstMsg = true) :
    (handshake tbl freshId firstMsg).1 = tbl ∧
    (handshake tbl freshId firstMsg).2.2 = ConnState.closed ∧
    ∃ m, (handshake tbl freshId firstMsg).2.1 = [OutEvent.error m] := by
  cases firstMsg with
  | none => exact ⟨rfl, rfl, "connection_failed", rfl⟩
  | some p =>
    have hp : isStart p = false := by
      simpa [notStartMsg] using h
    refine ⟨?_, ?_, "invalid_start_payload", ?_⟩ <;> simp [handshake, hp]

theorem invalid_first_message_closes_witness :
    (handshake [] "s1" (some (Json.str "hi"))).1 = [] ∧
    (handshake [] "s1" (some (Json.str "hi"))).2.2 = ConnState.closed ∧
    ∃ m, (handshake [] "s1" (some (Json.str "hi"))).2.1 = [OutEvent.error m] :=
  invalid_first_message_closes [] "s1" (some (Json.str "hi")) rfl

/-- C8: `GET /session/{id}` returns the table unchanged in every case,
answers the stored record as `(session_id, answers, history, turns)`
when the id is present, and the error document when it is absent. -/
theorem get_session_endpoint_spec (tbl : SessionTable) (sid : String) :
    (get_session tbl sid).2 = tbl ∧
    (∀ s : Session, sget tbl sid = some s →
      (get_session tbl sid).1 =
        GetSessionResp.ok sid s.answers s.history s.turn_count) ∧
    (sget tbl sid = none →
      (get_session tbl sid).1 = GetSessionResp.err "session not found") := by
  refine ⟨?_, ?_, ?_⟩
  · cases h : sget tbl sid <;> simp [get_session, h]
  · intro s hs
    simp [get_session, hs]
  · intro hn
    simp [get_session, hn]

theorem get_session_endpoint_spec_witness :
    (get_session tbl0 "s1").1 = GetSessionResp.ok "s1" [] [] 0 ∧
    (get_session ([] : SessionTable) "s1").1 =
      GetSessionResp.err "session not found" :=
  ⟨(get_session_endpoint_spec tbl0 "s1").2.1 s0 rfl,
   (get_session_endpoint_spec ([] : SessionTable) "s1").2.2 rfl⟩

/-- C9 (modelled from the spec, persistence sink of the other server
variant): `POST /save` with data `\x7b"name": "Ana"\x7d` and an empty
transcript responds with the fixed success message, the echoed data and
a zero transcript count, and overwrites the data file so it contains
exactly `\x7b"name": "Ana"\x7d`, whatever the previous file contents were. -/
theorem post_save_scenario (fs : FsState) (ts : String) :
    post_save fs ts [("name", Json.str "Ana")] [] =
      ({ dataFile := some (Json.obj [("name", Json.str "Ana")])
         transcriptFile := some (Json.obj
           [("user_data", Json.obj [("name", Json.str "Ana")]),
            ("conversation", Json.arr []),
            ("timestamp", Json.str ts)]) },
       { message := "Data and transcript saved successfully!"
         data := [("name", Json.str "Ana")]
         transcript_messages := 0 }) := rfl

/-- C10: a client disconnect in the Active state terminates the loop
with no events and leaves the table exactly as it was, so an answer and
history event applied by a completed `save_answer` call remain present,
as does the session record itself. -/
theorem disconnect_preserves_saved_state (tbl : SessionTable)
    (sid k v : String) (s : Session) (turn : TurnResult)
    (h : sget tbl sid = some s) :
    loopIter (save_answer tbl sid k v).1 sid RecvResult.disconnected turn =
      StepResult.closedStep (save_answer tbl sid k v).1 [] ∧
    sget (save_answer tbl sid k v).1 sid =
      some { s with answers := AList.upsert s.answers k v,
                    history := s.history ++ [(k, v)] } := by
  refine ⟨rfl, ?_⟩
  rw [save_answer_found tbl sid k v s h]
  exact sget_sset_self _ _ _

theorem disconnect_preserves_saved_state_witness :
    loopIter (save_answer tbl0 "s1" "name" "Ana").1 "s1" RecvResult.disconnected
        (TurnResult.ok [] "x" tbl0) =
      StepResult.closedStep (save_answer tbl0 "s1" "name" "Ana").1 [] ∧
    sget (save_answer tbl0 "s1" "name" "Ana").1 "s1" =
      some { s0 with answers := AList.upsert s0.answers "name" "Ana",
                     history := s0.history ++ [("name", "Ana")] } :=
  disconnect_preserves_saved_state tbl0 "s1" "name" "Ana" s0
    (TurnResult.ok [] "x" tbl0) rfl

end Onboarding
